import Mathlib

/-!
Verification of the MarketSage multi-agent task-delegation core.

Shallow embedding of:
  * `app/agent/host/multiagent/remote_agent_connection.py`
      (`RemoteAgentConnections.send_task`, `merge_metadata`)
  * `app/agent/host/multiagent/host_agent.py`
      (`HostAgent.send_task`, `convert_parts`, `convert_part`)
  * `app/api/routes/host_agent_router.py` (`handle_task_updates`)
  * `app/api/services/notification_service.py`
      (`NotificationService.send_task_update`)

Python `dict[str, α]` values are modelled as ordered association lists with
unique keys, Python `None`-able attributes as `Option`, raised exceptions as
`Except String`, and the `uuid.uuid4()` / `datetime.now()` environment values
as explicit parameters.  The shared wire data model (`Task`, `Part`,
`TaskState`, ... from the project's `common.types` module, described in
section 3 of the spec) is declared here with exactly the fields the embedded
code reads.  Metadata values are modelled as strings (the code never inspects
the values it propagates).
-/

/-! ### Python dict model (ordered association list, unique keys) -/

/-- Lookup of a key in an association list; the first binding wins,
mirroring a Python dict (whose keys are unique). -/
def alGet {α : Type} (l : List (String × α)) (k : String) : Option α :=
  match l with
  | [] => none
  | p :: rest => if p.1 = k then some p.2 else alGet rest k

/-- Python `d[k] = v`: replace the first binding of `k` in place, otherwise
append the new binding at the end (dict insertion order). -/
def alInsert {α : Type} (l : List (String × α)) (k : String) (v : α) :
    List (String × α) :=
  match l with
  | [] => [(k, v)]
  | p :: rest => if p.1 = k then (k, v) :: rest else p :: alInsert rest k v

/-- Python `del d[k]`. -/
def alErase {α : Type} (l : List (String × α)) (k : String) :
    List (String × α) :=
  l.filter (fun p => !(p.1 == k))

/-- String-keyed, string-valued metadata mapping. -/
abbrev Dict : Type := List (String × String)

/-- Python `target.update(source)`: write every binding of `source` into
`target`, source values overwriting on key collision. -/
def dictUpdate (target source : Dict) : Dict :=
  source.foldl (fun acc p => alInsert acc p.1 p.2) target

/-- Python truthiness of an optional dict attribute: `None` and the empty
dict are falsy. -/
def dictTruthy : Option Dict → Bool
  | none => false
  | some d => !d.isEmpty

/-! ### merge_metadata (remote_agent_connection.py lines 126-142) -/

/-- Embedding of `merge_metadata(target, source)`: if both metadata values
are truthy, `target.metadata.update(source.metadata)`; else if only the
source is truthy, the target becomes a copy of the source; otherwise the
target is left unchanged.  (All modelled objects have the `metadata`
attribute, so the `hasattr` guard is always satisfied.) -/
def merge_metadata (target source : Option Dict) : Option Dict :=
  if dictTruthy target && dictTruthy source then
    some (dictUpdate (target.getD []) (source.getD []))
  else if dictTruthy source then
    source
  else target

/-! ### Wire data model (spec section 3; `common.types`) -/

/-- TaskState enum (spec section 3). -/
inductive TaskState where
  | submitted
  | working
  | input_required
  | completed
  | canceled
  | failed
  | unknown
deriving DecidableEq

/-- Payload of an A2A FilePart: declared name, MIME type, and
base64-encoded bytes. -/
structure FileContent where
  name : String
  mimeType : String
  bytes : String
deriving DecidableEq

/-- Part variants (spec section 3); source name `Part` (renamed here because
Lean already has a `Part`).  `other` stands for a wire part whose `type` tag
is none of the three known kinds. -/
inductive TaskPart where
  | text (text : String)
  | data (data : Dict)
  | file (file : FileContent)
  | other (kind : String)
deriving DecidableEq

/-- A message: role, ordered parts, optional metadata. -/
structure PyMessage where
  role : String
  parts : List TaskPart
  metadata : Option Dict := none
deriving DecidableEq

/-- Task status: state enum, optional message, optional timestamp. -/
structure TaskStatus where
  state : TaskState
  message : Option PyMessage := none
  timestamp : Option String := none
deriving DecidableEq

/-- An artifact: optional name/description and ordered parts. -/
structure Artifact where
  name : Option String := none
  description : Option String := none
  parts : List TaskPart
deriving DecidableEq

/-- The duck-typed argument flowing through `task_callback`
(`Task | TaskStatusUpdateEvent | TaskArtifactUpdateEvent`): a field the
concrete object lacks (probed with `hasattr` in the source) is `none`. -/
structure Update where
  id : Option String := none
  sessionId : Option String := none
  status : Option TaskStatus := none
  artifacts : Option (List Artifact) := none
  metadata : Option Dict := none
  final : Option Bool := none
  history : Option (List PyMessage) := none
deriving DecidableEq

/-- A default (all-fields-absent) update value. -/
def emptyUpdate : Update := {}

/-- The `Task` result object consumed by `HostAgent.send_task`: `id`,
`sessionId` and `status` are mandatory on a Task. -/
structure TaskRes where
  id : String
  sessionId : String
  status : TaskStatus
  artifacts : Option (List Artifact) := none
deriving DecidableEq

/-- Capability flags of an agent card. -/
structure AgentCapabilities where
  streaming : Bool
deriving DecidableEq

/-- A named skill advertised on an agent card. -/
structure Skill where
  name : String
  description : String
deriving DecidableEq

/-- Agent card: name, description, capabilities, optional skill list. -/
structure AgentCard where
  name : String
  description : String := ""
  capabilities : AgentCapabilities
  skills : Option (List Skill) := none
deriving DecidableEq

/-- TaskSendParams: the request constructed by `HostAgent.send_task`. -/
structure TaskSendParams where
  id : String
  sessionId : String
  message : PyMessage
  acceptedOutputModes : List String := ["text", "text/plain", "image/png"]
  metadata : Option Dict := none
deriving DecidableEq

/-- The status message of an update, when both the `status` attribute and a
truthy `status.message` are present. -/
def status_message (u : Update) : Option PyMessage :=
  match u.status with
  | some st => st.message
  | none => none

/-! ### RemoteAgentConnections.send_task (remote_agent_connection.py) -/

/-- The metadata rewrite applied to a status message inside
`RemoteAgentConnections.send_task`: merge the request message's metadata in,
default a falsy result to the empty dict, relabel a prior `message_id` as
`last_message_id`, then assign the freshly generated `message_id`. -/
def rotate_meta (reqMsgMeta : Option Dict) (fresh : String)
    (msgMeta : Option Dict) : Dict :=
  let meta := (merge_metadata msgMeta reqMsgMeta).getD []
  let meta :=
    match alGet meta "message_id" with
    | some v => alInsert meta "last_message_id" v
    | none => meta
  alInsert meta "message_id" fresh

/-- Per-update processing shared by the streaming and non-streaming paths:
`merge_metadata(response.result, request)` on the top-level metadata, then,
when a truthy status message is present, the message-metadata merge and
message-id rotation.  `fresh` is the `uuid.uuid4()` drawn for this update. -/
def process_result (req : TaskSendParams) (fresh : String) (u : Update) :
    Update :=
  let topMeta := merge_metadata u.metadata req.metadata
  match u.status with
  | some st =>
    match st.message with
    | some m =>
      { u with
        metadata := topMeta,
        status := some { st with
          message := some { m with
            metadata := some (rotate_meta req.message.metadata fresh m.metadata) } } }
    | none => { u with metadata := topMeta }
  | none => { u with metadata := topMeta }

/-- The synthetic "submitted" Task delivered to the callback before a
streaming call opens, carrying the request message, history = [request
message]. -/
def synthetic_submitted (req : TaskSendParams) : Update :=
  { id := some req.id,
    sessionId := some req.sessionId,
    status := some { state := TaskState.submitted, message := some req.message },
    history := some [req.message] }

namespace RemoteAgentConnections

/-- The `async for` loop over the streaming responses: process each update,
invoke the callback when present capturing its return as the candidate
result, and stop at the first update whose `final` attribute is truthy.
The first component collects the arguments passed to the callback, in
order; `n` indexes the fresh-uuid supply. -/
def stream_loop (req : TaskSendParams) (cb : Option (Update → Update))
    (fresh : Nat → String) : List Update → Nat → Option Update →
    List Update × Option Update
  | [], _, task => ([], task)
  | u :: rest, n, task =>
    let u1 := process_result req (fresh n) u
    let task1 :=
      match cb with
      | some f => some (f u1)
      | none => task
    let log1 : List Update :=
      match cb with
      | some _ => [u1]
      | none => []
    if u1.final.getD false = true then (log1, task1)
    else
      let r := stream_loop req cb fresh rest (n + 1) task1
      (log1 ++ r.1, r.2)

/-- Embedding of `RemoteAgentConnections.send_task`.  The remote side is
supplied explicitly: `stream` is the sequence the streaming client would
yield (each element a `response.result`), and `resp` the single
non-streaming `response.result`.  Returns the ordered list of arguments the
callback was invoked with, paired with the method's return value. -/
def send_task (card : AgentCard) (req : TaskSendParams)
    (cb : Option (Update → Update)) (fresh : Nat → String)
    (stream : List Update) (resp : Update) :
    List Update × Option Update :=
  if card.capabilities.streaming then
    let pre : List Update :=
      match cb with
      | some _ => [synthetic_submitted req]
      | none => []
    let r := stream_loop req cb fresh stream 0 none
    (pre ++ r.1, r.2)
  else
    let r := process_result req (fresh 0) resp
    let log : List Update :=
      match cb with
      | some _ => [r]
      | none => []
    (log, some r)

end RemoteAgentConnections

/-! ### HostAgent.send_task (host_agent.py) -/

/-- The session-scoped entries of `tool_context.state` that
`HostAgent.send_task` reads or writes: `session_id` (set by
`before_model_callback` before any send), `session_active`, the optional
`task_id`, `agent`, and `input_message_metadata` entries. -/
structure SessState where
  session_id : String
  session_active : Bool := false
  task_id : Option String := none
  agent : Option String := none
  input_message_metadata : Option Dict := none
deriving DecidableEq

/-- The tool context: session state plus the escalation flags
(`tool_context.actions`) and the artifacts saved through
`tool_context.save_artifact` as (id, mime type, decoded bytes) triples. -/
structure ToolContext where
  state : SessState
  skip_summarization : Bool := false
  escalate : Bool := false
  artifacts : List (String × String × String) := []
deriving DecidableEq

/-- A normalized response item produced by `convert_part`: the raw text
string of a Text part, the raw payload of a Data part, or (for a File
part) a freshly built DataPart object. -/
inductive ConvResult where
  | str (s : String)
  | data (d : Dict)
  | part (p : TaskPart)
deriving DecidableEq

/-- Embedding of `convert_part` (host_agent.py lines 265-283).  `b64`
stands for the external `base64.b64decode`.  A File part saves the decoded
blob under the file's declared name, sets both escalation flags, and
yields a `DataPart` holding the artifact-file-id; a part of any other kind
reaches the final `return f"Unknown type: {p.type}"` line, which raises
`NameError` because no variable `p` is in scope there (the parameter is
named `part`), modelled as an `Except.error`. -/
def convert_part (b64 : String → String) (part : TaskPart)
    (ctx : ToolContext) : ToolContext × Except String ConvResult :=
  match part with
  | TaskPart.text s => (ctx, Except.ok (ConvResult.str s))
  | TaskPart.data d => (ctx, Except.ok (ConvResult.data d))
  | TaskPart.file f =>
    let file_id := f.name
    let file_bytes := b64 f.bytes
    let ctx1 := { ctx with
      artifacts := ctx.artifacts ++ [(file_id, f.mimeType, file_bytes)],
      skip_summarization := true,
      escalate := true }
    (ctx1, Except.ok (ConvResult.part (TaskPart.data [("artifact-file-id", file_id)])))
  | TaskPart.other _ => (ctx, Except.error "NameError: name p is not defined")

/-- Embedding of `convert_parts`: convert each part in order; an exception
raised by `convert_part` propagates, keeping the context mutations already
performed and discarding the list built so far. -/
def convert_parts (b64 : String → String) :
    List TaskPart → ToolContext → ToolContext × Except String (List ConvResult)
  | [], ctx => (ctx, Except.ok [])
  | p :: rest, ctx =>
    let r := convert_part b64 p ctx
    match r.2 with
    | Except.error e => (r.1, Except.error e)
    | Except.ok item =>
      let r2 := convert_parts b64 rest r.1
      match r2.2 with
      | Except.error e => (r2.1, Except.error e)
      | Except.ok items => (r2.1, Except.ok (item :: items))

/-- The `for artifact in task.artifacts:` loop of `HostAgent.send_task`:
`response.extend(convert_parts(artifact.parts, tool_context))` per
artifact, an exception propagating as in `convert_parts`. -/
def convert_artifacts (b64 : String → String) :
    List Artifact → ToolContext → ToolContext × Except String (List ConvResult)
  | [], ctx => (ctx, Except.ok [])
  | a :: rest, ctx =>
    let r := convert_parts b64 a.parts ctx
    match r.2 with
    | Except.error e => (r.1, Except.error e)
    | Except.ok items =>
      let r2 := convert_artifacts b64 rest r.1
      match r2.2 with
      | Except.error e => (r2.1, Except.error e)
      | Except.ok items2 => (r2.1, Except.ok (items ++ items2))

/-- The terminal states of `HostAgent.send_task`: session activity is
cleared exactly on these (host_agent.py lines 208-213). -/
def terminal_states : List TaskState :=
  [TaskState.completed, TaskState.canceled, TaskState.failed, TaskState.unknown]

/-- Construction of the outgoing `TaskSendParams` (host_agent.py lines
179-205): reuse `state['task_id']` when present, else the fresh uuid
`freshTask`; take `message_id` from `input_message_metadata` when present
and truthy, else the fresh uuid `freshMsg`; message metadata is the
carried-over input metadata overridden with `conversation_id` and
`message_id`. -/
def build_request (state : SessState) (msg freshTask freshMsg : String) :
    TaskSendParams :=
  let taskId :=
    match state.task_id with
    | some t => t
    | none => freshTask
  let sessionId := state.session_id
  let messageId0 :=
    match state.input_message_metadata with
    | some imm => (alGet imm "message_id").getD ""
    | none => ""
  let messageId := if messageId0 = "" then freshMsg else messageId0
  let metadata0 : Dict :=
    match state.input_message_metadata with
    | some imm => dictUpdate [] imm
    | none => []
  let metadata :=
    dictUpdate metadata0 [("conversation_id", sessionId), ("message_id", messageId)]
  { id := taskId,
    sessionId := sessionId,
    message := { role := "user", parts := [TaskPart.text msg], metadata := some metadata },
    metadata := some [("conversation_id", sessionId)] }

/-- Normalization of the result (host_agent.py lines 224-234): convert the
status message's parts when a message is present, then every artifact's
parts, concatenating into one flat response list. -/
def build_response (b64 : String → String) (result : TaskRes)
    (ctx : ToolContext) : ToolContext × Except String (List ConvResult) :=
  let r1 :=
    match result.status.message with
    | some m => convert_parts b64 m.parts ctx
    | none => (ctx, Except.ok [])
  match r1.2 with
  | Except.error e => (r1.1, Except.error e)
  | Except.ok items =>
    let r2 := convert_artifacts b64 ((result.artifacts).getD []) r1.1
    match r2.2 with
    | Except.error e => (r2.1, Except.error e)
    | Except.ok items2 => (r2.1, Except.ok (items ++ items2))

/-- Outcome of one `HostAgent.send_task` call: the tool context as mutated
so far (its mutations persist even when the call raises), the request that
was issued (absent when the agent was not registered), and either the
normalized response list or the raised error. -/
structure HostOutcome where
  ctx : ToolContext
  request : Option TaskSendParams
  result : Except String (List ConvResult)

namespace HostAgent

/-- Embedding of `HostAgent.send_task` (host_agent.py lines 154-257).
`agents` is the key set of `self.remote_agent_connections`; `freshTask` and
`freshMsg` are the `uuid.uuid4()` values drawn when no task id /
message id is carried over; `result` is the `Task` the remote connection
returned.  Note that the method never writes `state['task_id']`. -/
def send_task (agents : List String) (agent_name msg : String)
    (b64 : String → String) (ctx : ToolContext)
    (freshTask freshMsg : String) (result : TaskRes) : HostOutcome :=
  if agent_name ∈ agents then
    let ctx := { ctx with state := { ctx.state with agent := some agent_name } }
    let request := build_request ctx.state msg freshTask freshMsg
    let active := decide (result.status.state ∉ terminal_states)
    let ctx := { ctx with state := { ctx.state with session_active := active } }
    if result.status.state = TaskState.input_required then
      let ctx := { ctx with skip_summarization := true, escalate := true }
      let r := build_response b64 result ctx
      { ctx := r.1, request := some request, result := r.2 }
    else if result.status.state = TaskState.canceled then
      { ctx := ctx, request := some request,
        result := Except.error
          ("Agent " ++ agent_name ++ " task " ++ result.id ++ " is cancelled") }
    else if result.status.state = TaskState.failed then
      { ctx := ctx, request := some request,
        result := Except.error
          ("Agent " ++ agent_name ++ " task " ++ result.id ++ " failed") }
    else
      let r := build_response b64 result ctx
      { ctx := r.1, request := some request, result := r.2 }
  else
    { ctx := ctx, request := none,
      result := Except.error ("Agent " ++ agent_name ++ " not found") }

end HostAgent

/-! ### handle_task_updates (host_agent_router.py) -/

/-- The per-task agent record kept in `current_agent_info`. -/
structure AgentInfoR where
  name : String
  description : String
  skills : List (String × String)
deriving DecidableEq

/-- A structured artifact summary included in a task-completion result. -/
structure ArtifactSummary where
  name : Option String
  description : Option String
  content : List (String × String)
deriving DecidableEq

/-- The result object assembled for a task-completion notification. -/
structure CompletionResult where
  state : String := "completed"
  agent : String
  completion_time : String
  response : Option String := none
  artifactSummaries : Option (List ArtifactSummary) := none
deriving DecidableEq

/-- A notification emitted through the `NotificationService`. -/
inductive Notif where
  | agent_change (task_id : String) (agent : AgentInfoR)
  | thought_process (task_id : String) (log : String)
  | task_completion (task_id : String) (result : CompletionResult)
deriving DecidableEq

/-- The module-level bookkeeping maps of `host_agent_router.py`:
`thought_process_history` and `current_agent_info`. -/
structure RouterState where
  thought_process_history : List (String × String) := []
  current_agent_info : List (String × AgentInfoR) := []
deriving DecidableEq

/-- A minimal rendering standing for `json.dumps` on a data payload
(values are modelled as strings). -/
def jsonDumps (d : Dict) : String :=
  "\x7b" ++ String.intercalate ", "
    (d.map (fun p => "\"" ++ p.1 ++ "\": \"" ++ p.2 ++ "\"")) ++ "\x7d"

/-- Python substring test `needle in hay` over character lists. -/
def containsSub (needle : List Char) : List Char → Bool
  | [] => needle.isEmpty
  | c :: rest => needle.isPrefixOf (c :: rest) || containsSub needle rest

/-- Python `needle in hay` on strings. -/
def strContains (hay needle : String) : Bool :=
  containsSub needle.toList hay.toList

/-- The thought-process markers of the extraction regex, lowercased (the
search is case-insensitive), in the alternation order of the pattern. -/
def thought_markers : List (List Char) :=
  ["thought process:", "reasoning:", "thinking:", "i need to",
   "let me think about"].map String.toList

/-- Try to match one of the markers at the head of `cs`
(case-insensitively); on success return the remaining characters. -/
def tryMarkersAt (cs : List Char) : Option (List Char) :=
  match thought_markers.find?
      (fun m => (cs.take m.length).map Char.toLower == m) with
  | some m => some (cs.drop m.length)
  | none => none

/-- `re.search` of the extraction pattern: scan left to right for the first
marker occurrence and capture `[^<]*` after it — everything up to the next
angle-bracket or the end of the text. -/
def scanForMarker : List Char → Option (List Char)
  | [] => none
  | c :: rest =>
    match tryMarkersAt (c :: rest) with
    | some tail => some (tail.takeWhile (fun ch => !(ch == '<')))
    | none => scanForMarker rest

/-- Python `str.strip()`: drop leading and trailing whitespace. -/
def stripChars (cs : List Char) : List Char :=
  ((cs.dropWhile Char.isWhitespace).reverse.dropWhile Char.isWhitespace).reverse

/-- Concatenation of the truthy `text` attributes of a message's parts
(only Text parts carry a `text` attribute). -/
def message_text (parts : List TaskPart) : String :=
  parts.foldl
    (fun acc p =>
      match p with
      | TaskPart.text s => acc ++ s
      | _ => acc) ""

/-- The thought fragment extracted from an update's status message:
`re.search` for a marker over the joined text parts, then `strip()` of the
captured group.  `none` when the update has no truthy status message or the
pattern does not match. -/
def extract_thought (u : Update) : Option String :=
  match status_message u with
  | some m =>
    match scanForMarker (message_text m.parts).toList with
    | some cap => some (String.mk (stripChars cap))
    | none => none
  | none => none

/-- The task state read off an update when the `status` attribute is
present. -/
def stateOf (u : Update) : Option TaskState :=
  u.status.map TaskStatus.state

/-- The agent record built from an agent card (skills default to `[]` when
the card has no truthy skill list). -/
def mkAgentInfo (card : AgentCard) : AgentInfoR :=
  { name := card.name,
    description := card.description,
    skills :=
      match card.skills with
      | some l => l.map (fun sk => (sk.name, sk.description))
      | none => [] }

/-- Text/data rendering of message parts for the completion result
(truthy `text` attributes verbatim, truthy `data` attributes through
`json.dumps`). -/
def completion_message_parts (parts : List TaskPart) : List String :=
  parts.filterMap
    (fun p =>
      match p with
      | TaskPart.text s => if s = "" then none else some s
      | TaskPart.data d => if d.isEmpty then none else some (jsonDumps d)
      | _ => none)

/-- The structured summary built for one artifact. -/
def mkArtifactSummary (a : Artifact) : ArtifactSummary :=
  { name := a.name,
    description := a.description,
    content :=
      a.parts.filterMap
        (fun p =>
          match p with
          | TaskPart.text s => if s = "" then none else some ("text", s)
          | TaskPart.data d =>
            if d.isEmpty then none else some ("data", jsonDumps d)
          | _ => none) }

/-- The completion result object (state, agent name, completion timestamp,
joined textual response if present, artifact summaries if present). -/
def mkCompletionResult (u : Update) (agentName now : String) :
    CompletionResult :=
  let base : CompletionResult := { agent := agentName, completion_time := now }
  let base :=
    match status_message u with
    | some m =>
      let mparts := completion_message_parts m.parts
      if mparts.isEmpty then base
      else { base with response := some (String.intercalate "\n" mparts) }
    | none => base
  match u.artifacts with
  | some arts =>
    if arts.isEmpty then base
    else { base with artifactSummaries := some (arts.map mkArtifactSummary) }
  | none => base

/-- Agent-change step of `handle_task_updates`: first observation of a task
id, or a name differing from the recorded one, records the new agent and
emits an agent-change notification. -/
def step_agent (i : String) (ainfo : AgentInfoR) (st : RouterState) :
    RouterState × List Notif :=
  let changed :=
    match alGet st.current_agent_info i with
    | none => true
    | some prev => decide (¬ prev.name = ainfo.name)
  if changed then
    ({ st with current_agent_info := alInsert st.current_agent_info i ainfo },
     [Notif.agent_change i ainfo])
  else (st, [])

/-- Thought-process step of `handle_task_updates`: when a fragment is
extracted, create the log entry on first sight, append `"\n" + fragment`
only when the fragment is non-empty and not already a substring of the
log, and (for a non-empty fragment) emit a thought-process notification
carrying the full accumulated log. -/
def step_thought (i : String) (u : Update) (st : RouterState) :
    RouterState × List Notif :=
  match extract_thought u with
  | none => (st, [])
  | some tp =>
    let hist := st.thought_process_history
    let hist1 :=
      match alGet hist i with
      | none => alInsert hist i tp
      | some log =>
        if tp ≠ "" ∧ strContains log tp = false then
          alInsert hist i (log ++ "\n" ++ tp)
        else hist
    let st1 := { st with thought_process_history := hist1 }
    if tp = "" then (st1, [])
    else (st1, [Notif.thought_process i ((alGet hist1 i).getD "")])

/-- Completion step of `handle_task_updates`: on state COMPLETED, emit the
task-completion notification and delete the task's thought log and
agent-tracking entries. -/
def step_complete (i : String) (u : Update) (ainfo : AgentInfoR)
    (now : String) (st : RouterState) : RouterState × List Notif :=
  if stateOf u = some TaskState.completed then
    ({ st with
        thought_process_history := alErase st.thought_process_history i,
        current_agent_info := alErase st.current_agent_info i },
     [Notif.task_completion i (mkCompletionResult u ainfo.name now)])
  else (st, [])

/-- Embedding of `handle_task_updates` (host_agent_router.py lines 30-160):
an update without a truthy task id is passed through untouched; otherwise
the agent-change, thought-process and completion steps run in order.  The
function always returns the raw update it was given (also on the internal
`except Exception` path of the source).  Returns (new router state, emitted
notifications in order, returned update). -/
def handle_task_updates (u : Update) (card : AgentCard) (st : RouterState)
    (now : String) : RouterState × List Notif × Update :=
  match u.id with
  | none => (st, [], u)
  | some i =>
    if i = "" then (st, [], u)
    else
      let ainfo := mkAgentInfo card
      let r1 := step_agent i ainfo st
      let r2 := step_thought i u r1.1
      let r3 := step_complete i u ainfo now r2.1
      (r3.1, r1.2 ++ r2.2 ++ r3.2, u)

/-! ### NotificationService.send_task_update (notification_service.py) -/

/-- The outcome of the delivery attempt inside the `try` block of
`send_task_update`: an HTTP response with a status code, or any raised
exception (network error, token-creation failure, ...). -/
inductive DeliveryOutcome where
  | response (status : Nat)
  | exceptionRaised
deriving DecidableEq

namespace NotificationService

/-- Embedding of `NotificationService.send_task_update` (lines 131-173):
without a registered URL for the task id it returns `false`; with one, it
returns `true` exactly for a 2xx response and `false` for any other status
or for an exception raised during delivery — it never propagates an
error. -/
def send_task_update (urls : List (String × String)) (task_id : String)
    (outcome : DeliveryOutcome) : Bool :=
  match alGet urls task_id with
  | none => false
  | some _ =>
    match outcome with
    | DeliveryOutcome.response s => decide (200 ≤ s) && decide (s < 300)
    | DeliveryOutcome.exceptionRaised => false

end NotificationService

/-- The metadata dictionary carried on an update's status message (empty
when absent). -/
def status_message_metadata (u : Update) : Dict :=
  ((status_message u).bind PyMessage.metadata).getD []

/-! ### Concrete fixtures used by the evaluation theorems -/

/-- A small concrete non-streaming agent card. -/
def cardNS : AgentCard := { name := "planner-agent", capabilities := { streaming := false } }

/-- A small concrete streaming agent card. -/
def cardS : AgentCard := { name := "stream-agent", capabilities := { streaming := true } }

/-- A small concrete request as `HostAgent.send_task` would build it. -/
def reqW : TaskSendParams :=
  { id := "task-1", sessionId := "sess-1",
    message := { role := "user",
                 parts := [TaskPart.text "go"],
                 metadata := some [("conversation_id", "sess-1"), ("message_id", "m0")] },
    metadata := some [("conversation_id", "sess-1")] }

/-- A concrete non-final streaming update. -/
def updWorking : Update :=
  { id := some "task-1", final := some false,
    status := some { state := TaskState.working } }

/-- A concrete final streaming update. -/
def updFinal : Update :=
  { id := some "task-1", final := some true,
    status := some { state := TaskState.completed } }

/-- A concrete non-streaming response whose status message already carries
its own `conversation_id` metadata value. -/
def respOriginalMeta : Update :=
  { id := some "task-1", sessionId := some "sess-1",
    status := some { state := TaskState.working,
                     message := some { role := "agent",
                                       parts := [],
                                       metadata := some [("conversation_id", "resp-old")] } } }

/-- A fresh tool context whose session has an id but no recorded task. -/
def ctxFresh : ToolContext := { state := { session_id := "sess-1" } }

/-- A remote result in state WORKING. -/
def resWorking : TaskRes :=
  { id := "remote-1", sessionId := "sess-1", status := { state := TaskState.working } }

/-- A remote result in state INPUT_REQUIRED. -/
def resInputRequired : TaskRes :=
  { id := "remote-2", sessionId := "sess-1",
    status := { state := TaskState.input_required } }

/-- A remote COMPLETED result whose status message contains a part of an
unrecognized kind. -/
def resCompletedBadPart : TaskRes :=
  { id := "task-9", sessionId := "sess-1",
    status := { state := TaskState.completed,
                message := some { role := "agent",
                                  parts := [TaskPart.text "ok", TaskPart.other "video"] } } }

/-- A concrete WORKING update whose message carries a thought marker. -/
def updThinking : Update :=
  { id := some "task-T",
    status := some { state := TaskState.working,
                     message := some { role := "agent",
                                       parts := [TaskPart.text "Thinking: use the cache"] } } }

/-- A concrete COMPLETED update with a textual response. -/
def updCompleted : Update :=
  { id := some "task-T",
    status := some { state := TaskState.completed,
                     message := some { role := "agent",
                                       parts := [TaskPart.text "done"] } } }

/-! ### Association-list and merge lemmas -/

theorem alGet_insert {α : Type} (l : List (String × α)) (k k' : String) (v : α) :
    alGet (alInsert l k v) k' = if k = k' then some v else alGet l k' := by
  induction l with
  | nil => rfl
  | cons p rest ih =>
    by_cases hp : p.1 = k
    · by_cases h : k = k'
      · simp [alInsert, hp, alGet, h]
      · have hpk : ¬ p.1 = k' := fun hh => h (hp.symm.trans hh)
        simp [alInsert, hp, alGet, h, hpk]
    · by_cases hpk : p.1 = k'
      · have h : ¬ k = k' := fun hh => hp (hpk.trans hh.symm)
        have h2 : ¬ k' = k := fun hh => h hh.symm
        simp [alInsert, hp, alGet, hpk, h, h2]
      · simp [alInsert, hp, alGet, hpk, ih]

theorem alGet_eq_none_of_not_mem {α : Type} (l : List (String × α)) (k : String)
    (h : k ∉ l.map Prod.fst) : alGet l k = none := by
  induction l with
  | nil => rfl
  | cons p rest ih =>
    simp only [List.map_cons, List.mem_cons, not_or] at h
    have h1 : ¬ p.1 = k := Ne.symm h.1
    simp [alGet, h1, ih h.2]

theorem alGet_dictUpdate (t s : Dict) (hs : (s.map Prod.fst).Nodup) (k : String) :
    alGet (dictUpdate t s) k
      = match alGet s k with
        | some v => some v
        | none => alGet t k := by
  induction s generalizing t with
  | nil => simp [dictUpdate, alGet]
  | cons q s' ih =>
    simp only [List.map_cons, List.nodup_cons] at hs
    rw [show dictUpdate t (q :: s') = dictUpdate (alInsert t q.1 q.2) s' from rfl,
        ih _ hs.2]
    by_cases h : q.1 = k
    · have hnone : alGet s' k = none := alGet_eq_none_of_not_mem s' k (h ▸ hs.1)
      simp [alGet, h, hnone, alGet_insert]
    · have hins : alGet (alInsert t q.1 q.2) k = alGet t k := by
        rw [alGet_insert, if_neg h]
      simp [alGet, h, hins]

theorem alGet_merge_metadata (t s : Dict) (hs : (s.map Prod.fst).Nodup) (k : String) :
    alGet ((merge_metadata (some t) (some s)).getD []) k
      = match alGet s k with
        | some v => some v
        | none => alGet t k := by
  rcases t with _ | ⟨p, t'⟩
  · rcases s with _ | ⟨q, s'⟩
    · simp [merge_metadata, dictTruthy, alGet]
    · rcases h : alGet (q :: s') k with _ | v
      · exact h
      · exact h
  · rcases s with _ | ⟨q, s'⟩
    · simp [merge_metadata, dictTruthy, alGet]
    · simp [merge_metadata, dictTruthy, alGet_dictUpdate _ _ hs]

/-! ### Connection-level lemmas -/

theorem process_result_final (req : TaskSendParams) (s : String) (u : Update) :
    (process_result req s u).final = u.final := by
  rcases hs : u.status with _ | st
  · simp [process_result, hs]
  · rcases hm : st.message with _ | m <;> simp [process_result, hs, hm]

/-! ### Claim C1 -/

/-- Claim C1, counterexample: the non-streaming send path applies
`merge_metadata(status message, request message)`, which is a Python
`dict.update` — the request's value replaces the status message's existing
value at the shared key `user_id`, while the claim says an existing target
key keeps its original value. -/
theorem metadata_merge_counterexample :
    alGet (status_message_metadata respOriginalMeta) "conversation_id" = some "resp-old"
    ∧ alGet (status_message_metadata
          ((RemoteAgentConnections.send_task cardNS reqW (some (fun u => u))
              (fun _ => "fresh-uuid") [] respOriginalMeta).2.getD emptyUpdate))
        "conversation_id" = some "sess-1"
    ∧ ¬ (("sess-1" : String) = "resp-old") := by
  refine ⟨by decide, by decide, by decide⟩

/-- Claim C1, amended: inside `send`, request metadata is merged into the
update's status message metadata with the REQUEST's values taking
precedence on key conflicts (the reverse of the claimed precedence);
request keys absent from the target are added, and target keys absent from
the request keep their values.  The rotation keys `message_id` and
`last_message_id`, which `send` reassigns right after the merge, are
excluded. -/
theorem send_status_merge_request_precedence
    (reqMeta msgMeta : Dict) (fresh k : String)
    (hs : (reqMeta.map Prod.fst).Nodup)
    (h1 : ¬ k = "message_id") (h2 : ¬ k = "last_message_id") :
    alGet (rotate_meta (some reqMeta) fresh (some msgMeta)) k
      = match alGet reqMeta k with
        | some v => some v
        | none => alGet msgMeta k := by
  have h1s : ¬ "message_id" = k := fun hh => h1 hh.symm
  have h2s : ¬ "last_message_id" = k := fun hh => h2 hh.symm
  simp only [rotate_meta]
  rw [alGet_insert, if_neg h1s]
  rcases hm : alGet ((merge_metadata (some msgMeta) (some reqMeta)).getD [])
      "message_id" with _ | v
  · exact alGet_merge_metadata _ _ hs k
  · rw [alGet_insert, if_neg h2s]
    exact alGet_merge_metadata _ _ hs k

/-- Claim C1, witness for the amended theorem at concrete metadata. -/
theorem send_status_merge_request_precedence_witness :
    (([("conversation_id", "s"), ("message_id", "m")] : Dict).map Prod.fst).Nodup
    ∧ ¬ ("user_id" = "message_id")
    ∧ ¬ ("user_id" = "last_message_id")
    ∧ alGet (rotate_meta (some [("conversation_id", "s"), ("message_id", "m")]) "f"
          (some [("user_id", "u1"), ("conversation_id", "old")])) "user_id"
        = match alGet ([("conversation_id", "s"), ("message_id", "m")] : Dict) "user_id" with
          | some v => some v
          | none => alGet ([("user_id", "u1"), ("conversation_id", "old")] : Dict) "user_id" :=
  ⟨by decide, by decide, by decide,
   send_status_merge_request_precedence
     [("conversation_id", "s"), ("message_id", "m")]
     [("user_id", "u1"), ("conversation_id", "old")]
     "f" "user_id" (by decide) (by decide) (by decide)⟩

/-! ### Claim C4 -/

/-- Claim C4, counterexample: with a remote stream of exactly two updates,
U1 not final and U2 final, the streaming path invokes the callback three
times, not twice — it first delivers the synthetic "submitted" update. -/
theorem streaming_callback_count_counterexample :
    ¬ ((RemoteAgentConnections.send_task cardS reqW
          (some (fun u => u)) (fun _ => "f") [updWorking, updFinal]
          emptyUpdate).1.length = 2)
    ∧ (RemoteAgentConnections.send_task cardS reqW
          (some (fun u => u)) (fun _ => "f") [updWorking, updFinal]
          emptyUpdate).1.length = 3 := by
  constructor
  · decide
  · decide

/-- Claim C4, amended: for a streaming agent and a stream whose first
update U1 is not final and whose second update U2 is final, `send_task`
with a callback invokes the callback exactly three times — the synthetic
submitted update first, then the processed U1, then the processed U2 —
returns the callback's return value for U2, and consumes nothing of the
stream past U2. -/
theorem streaming_send_callback_sequence
    (card : AgentCard) (req : TaskSendParams) (f : Update → Update)
    (fresh : Nat → String) (u1 u2 : Update) (rest : List Update) (resp : Update)
    (hstream : card.capabilities.streaming = true)
    (h1 : u1.final.getD false = false)
    (h2 : u2.final.getD false = true) :
    RemoteAgentConnections.send_task card req (some f) fresh (u1 :: u2 :: rest) resp
      = ([synthetic_submitted req,
          process_result req (fresh 0) u1,
          process_result req (fresh 1) u2],
         some (f (process_result req (fresh 1) u2))) := by
  simp [RemoteAgentConnections.send_task, hstream,
        RemoteAgentConnections.stream_loop, process_result_final, h1, h2]

/-- Claim C4, witness: the amended callback sequence at a concrete
two-update stream. -/
theorem streaming_send_callback_sequence_witness :
    cardS.capabilities.streaming = true
    ∧ updWorking.final.getD false = false
    ∧ updFinal.final.getD false = true
    ∧ RemoteAgentConnections.send_task cardS reqW (some (fun u => u))
          (fun _ => "f") [updWorking, updFinal] emptyUpdate
        = ([synthetic_submitted reqW,
            process_result reqW ((fun (_ : Nat) => "f") 0) updWorking,
            process_result reqW ((fun (_ : Nat) => "f") 1) updFinal],
           some ((fun (u : Update) => u)
             (process_result reqW ((fun (_ : Nat) => "f") 1) updFinal))) :=
  ⟨by decide, by decide, by decide,
   streaming_send_callback_sequence cardS reqW (fun u => u) (fun _ => "f")
     updWorking updFinal [] emptyUpdate (by decide) (by decide) (by decide)⟩

/-! ### Claim C5 -/

/-- Claim C5: for a non-streaming agent, `send_task` invokes the provided
callback exactly once, with the processed response as its argument, and
returns exactly that processed response — independently of what the
callback returns (the argument list equals the singleton of the returned
value, for every callback `f`). -/
theorem non_streaming_send_returns_callback_argument
    (card : AgentCard) (req : TaskSendParams) (f : Update → Update)
    (fresh : Nat → String) (stream : List Update) (resp : Update)
    (hns : card.capabilities.streaming = false) :
    RemoteAgentConnections.send_task card req (some f) fresh stream resp
      = ([process_result req (fresh 0) resp],
         some (process_result req (fresh 0) resp)) := by
  simp [RemoteAgentConnections.send_task, hns]

/-- Claim C5, witness at a concrete non-streaming exchange. -/
theorem non_streaming_send_returns_callback_argument_witness :
    cardNS.capabilities.streaming = false
    ∧ RemoteAgentConnections.send_task cardNS reqW (some (fun u => u))
          (fun _ => "g") [] updFinal
        = ([process_result reqW ((fun (_ : Nat) => "g") 0) updFinal],
           some (process_result reqW ((fun (_ : Nat) => "g") 0) updFinal)) :=
  ⟨by decide,
   non_streaming_send_returns_callback_argument cardNS reqW (fun u => u)
     (fun _ => "g") [] updFinal (by decide)⟩

/-! ### Host-agent lemmas: part conversion preserves session state, and
the escalation flags are only ever set, never cleared -/

theorem convert_part_state (b64 : String → String) (p : TaskPart) (ctx : ToolContext) :
    (convert_part b64 p ctx).1.state = ctx.state := by
  cases p <;> rfl

theorem convert_part_skip (b64 : String → String) (p : TaskPart) (ctx : ToolContext)
    (h : ctx.skip_summarization = true) :
    (convert_part b64 p ctx).1.skip_summarization = true := by
  cases p <;> simp [convert_part, h]

theorem convert_part_escalate (b64 : String → String) (p : TaskPart) (ctx : ToolContext)
    (h : ctx.escalate = true) :
    (convert_part b64 p ctx).1.escalate = true := by
  cases p <;> simp [convert_part, h]

theorem convert_parts_state (b64 : String → String) (ps : List TaskPart) (ctx : ToolContext) :
    (convert_parts b64 ps ctx).1.state = ctx.state := by
  induction ps generalizing ctx with
  | nil => rfl
  | cons p rest ih =>
    simp only [convert_parts]
    rcases hr : (convert_part b64 p ctx).2 with e | item
    · simp [hr, convert_part_state]
    · rcases h2 : (convert_parts b64 rest (convert_part b64 p ctx).1).2 with e2 | items <;>
        simp [hr, h2, ih, convert_part_state]

theorem convert_parts_skip (b64 : String → String) (ps : List TaskPart) (ctx : ToolContext)
    (h : ctx.skip_summarization = true) :
    (convert_parts b64 ps ctx).1.skip_summarization = true := by
  induction ps generalizing ctx with
  | nil => exact h
  | cons p rest ih =>
    simp only [convert_parts]
    rcases hr : (convert_part b64 p ctx).2 with e | item
    · simp [hr, convert_part_skip _ _ _ h]
    · rcases h2 : (convert_parts b64 rest (convert_part b64 p ctx).1).2 with e2 | items <;>
        simp [hr, h2, ih _ (convert_part_skip _ _ _ h)]

theorem convert_parts_escalate (b64 : String → String) (ps : List TaskPart) (ctx : ToolContext)
    (h : ctx.escalate = true) :
    (convert_parts b64 ps ctx).1.escalate = true := by
  induction ps generalizing ctx with
  | nil => exact h
  | cons p rest ih =>
    simp only [convert_parts]
    rcases hr : (convert_part b64 p ctx).2 with e | item
    · simp [hr, convert_part_escalate _ _ _ h]
    · rcases h2 : (convert_parts b64 rest (convert_part b64 p ctx).1).2 with e2 | items <;>
        simp [hr, h2, ih _ (convert_part_escalate _ _ _ h)]

theorem convert_artifacts_state (b64 : String → String) (arts : List Artifact) (ctx : ToolContext) :
    (convert_artifacts b64 arts ctx).1.state = ctx.state := by
  induction arts generalizing ctx with
  | nil => rfl
  | cons a rest ih =>
    simp only [convert_artifacts]
    rcases hr : (convert_parts b64 a.parts ctx).2 with e | items
    · simp [hr, convert_parts_state]
    · rcases h2 : (convert_artifacts b64 rest (convert_parts b64 a.parts ctx).1).2 with e2 | items2 <;>
        simp [hr, h2, ih, convert_parts_state]

theorem convert_artifacts_skip (b64 : String → String) (arts : List Artifact) (ctx : ToolContext)
    (h : ctx.skip_summarization = true) :
    (convert_artifacts b64 arts ctx).1.skip_summarization = true := by
  induction arts generalizing ctx with
  | nil => exact h
  | cons a rest ih =>
    simp only [convert_artifacts]
    rcases hr : (convert_parts b64 a.parts ctx).2 with e | items
    · simp [hr, convert_parts_skip _ _ _ h]
    · rcases h2 : (convert_artifacts b64 rest (convert_parts b64 a.parts ctx).1).2 with e2 | items2 <;>
        simp [hr, h2, ih _ (convert_parts_skip _ _ _ h)]

theorem convert_artifacts_escalate (b64 : String → String) (arts : List Artifact) (ctx : ToolContext)
    (h : ctx.escalate = true) :
    (convert_artifacts b64 arts ctx).1.escalate = true := by
  induction arts generalizing ctx with
  | nil => exact h
  | cons a rest ih =>
    simp only [convert_artifacts]
    rcases hr : (convert_parts b64 a.parts ctx).2 with e | items
    · simp [hr, convert_parts_escalate _ _ _ h]
    · rcases h2 : (convert_artifacts b64 rest (convert_parts b64 a.parts ctx).1).2 with e2 | items2 <;>
        simp [hr, h2, ih _ (convert_parts_escalate _ _ _ h)]

theorem build_response_state (b64 : String → String) (result : TaskRes) (ctx : ToolContext) :
    (build_response b64 result ctx).1.state = ctx.state := by
  simp only [build_response]
  rcases hm : result.status.message with _ | m
  · simp [hm]
    rcases h2 : (convert_artifacts b64 ((result.artifacts).getD []) ctx).2 with e2 | items2 <;>
      simp [h2, convert_artifacts_state]
  · simp [hm]
    rcases hr : (convert_parts b64 m.parts ctx).2 with e | items
    · simp [hr, convert_parts_state]
    · rcases h2 : (convert_artifacts b64 ((result.artifacts).getD [])
          (convert_parts b64 m.parts ctx).1).2 with e2 | items2 <;>
        simp [hr, h2, convert_artifacts_state, convert_parts_state]

theorem build_response_skip (b64 : String → String) (result : TaskRes) (ctx : ToolContext)
    (h : ctx.skip_summarization = true) :
    (build_response b64 result ctx).1.skip_summarization = true := by
  simp only [build_response]
  rcases hm : result.status.message with _ | m
  · simp [hm]
    rcases h2 : (convert_artifacts b64 ((result.artifacts).getD []) ctx).2 with e2 | items2 <;>
      simp [h2, convert_artifacts_skip _ _ _ h]
  · simp [hm]
    rcases hr : (convert_parts b64 m.parts ctx).2 with e | items
    · simp [hr, convert_parts_skip _ _ _ h]
    · rcases h2 : (convert_artifacts b64 ((result.artifacts).getD [])
          (convert_parts b64 m.parts ctx).1).2 with e2 | items2 <;>
        simp [hr, h2, convert_artifacts_skip _ _ _ (convert_parts_skip _ _ _ h)]

theorem build_response_escalate (b64 : String → String) (result : TaskRes) (ctx : ToolContext)
    (h : ctx.escalate = true) :
    (build_response b64 result ctx).1.escalate = true := by
  simp only [build_response]
  rcases hm : result.status.message with _ | m
  · simp [hm]
    rcases h2 : (convert_artifacts b64 ((result.artifacts).getD []) ctx).2 with e2 | items2 <;>
      simp [h2, convert_artifacts_escalate _ _ _ h]
  · simp [hm]
    rcases hr : (convert_parts b64 m.parts ctx).2 with e | items
    · simp [hr, convert_parts_escalate _ _ _ h]
    · rcases h2 : (convert_artifacts b64 ((result.artifacts).getD [])
          (convert_parts b64 m.parts ctx).1).2 with e2 | items2 <;>
        simp [hr, h2, convert_artifacts_escalate _ _ _ (convert_parts_escalate _ _ _ h)]

/-! ### Claim C6 -/

/-- Claim C6: after `HostAgent.send_task` receives a result task, the
session's active flag equals the result state's non-membership in the
terminal set COMPLETED, CANCELED, FAILED, UNKNOWN — so SUBMITTED, WORKING
and INPUT_REQUIRED set it true and the four terminal states set it false —
and for INPUT_REQUIRED both escalation flags are additionally set. -/
theorem send_task_session_flags
    (agents : List String) (agent_name msg : String) (b64 : String → String)
    (ctx : ToolContext) (freshTask freshMsg : String) (result : TaskRes)
    (hreg : agent_name ∈ agents) :
    ((HostAgent.send_task agents agent_name msg b64 ctx freshTask freshMsg
        result).ctx.state.session_active = true
      ↔ result.status.state ∉ terminal_states)
    ∧ (result.status.state = TaskState.input_required →
        (HostAgent.send_task agents agent_name msg b64 ctx freshTask freshMsg
            result).ctx.skip_summarization = true
        ∧ (HostAgent.send_task agents agent_name msg b64 ctx freshTask freshMsg
            result).ctx.escalate = true) := by
  simp only [HostAgent.send_task]
  rw [if_pos hreg]
  by_cases hIR : result.status.state = TaskState.input_required
  · rw [if_pos hIR]
    constructor
    · rw [build_response_state]
      exact decide_eq_true_iff
    · intro _
      exact ⟨build_response_skip _ _ _ rfl, build_response_escalate _ _ _ rfl⟩
  · rw [if_neg hIR]
    by_cases hC : result.status.state = TaskState.canceled
    · rw [if_pos hC]
      exact ⟨decide_eq_true_iff, fun h => absurd h hIR⟩
    · rw [if_neg hC]
      by_cases hF : result.status.state = TaskState.failed
      · rw [if_pos hF]
        exact ⟨decide_eq_true_iff, fun h => absurd h hIR⟩
      · rw [if_neg hF]
        constructor
        · rw [build_response_state]
          exact decide_eq_true_iff
        · intro h
          exact absurd h hIR

/-- Claim C6, witness: an INPUT_REQUIRED result on a registered agent. -/
theorem send_task_session_flags_witness :
    ("planner-agent" ∈ ["planner-agent"])
    ∧ (((HostAgent.send_task ["planner-agent"] "planner-agent" "hi" (fun s => s)
          ctxFresh "t1" "m1" resInputRequired).ctx.state.session_active = true
        ↔ resInputRequired.status.state ∉ terminal_states)
       ∧ (resInputRequired.status.state = TaskState.input_required →
           (HostAgent.send_task ["planner-agent"] "planner-agent" "hi" (fun s => s)
              ctxFresh "t1" "m1" resInputRequired).ctx.skip_summarization = true
           ∧ (HostAgent.send_task ["planner-agent"] "planner-agent" "hi" (fun s => s)
              ctxFresh "t1" "m1" resInputRequired).ctx.escalate = true)) :=
  ⟨by decide,
   send_task_session_flags ["planner-agent"] "planner-agent" "hi" (fun s => s)
     ctxFresh "t1" "m1" resInputRequired (by decide)⟩

/-! ### Claim C2 -/

/-- Claim C2: refuted by evaluation — `HostAgent.send_task` never writes
`state['task_id']`.  A first call on a fresh session with a non-terminal
(WORKING) result issues its request with the fresh task id and leaves the
session active, but the post-call session state still has no `task_id`
entry, so a second call on that same session issues its request with the
second fresh uuid rather than reusing the first task id. -/
theorem send_task_task_id_not_recorded :
    ((HostAgent.send_task ["planner-agent"] "planner-agent" "hi" (fun s => s)
        ctxFresh "fresh-task-1" "m1" resWorking).request.map TaskSendParams.id)
      = some "fresh-task-1"
    ∧ (HostAgent.send_task ["planner-agent"] "planner-agent" "hi" (fun s => s)
        ctxFresh "fresh-task-1" "m1" resWorking).ctx.state.session_active = true
    ∧ (HostAgent.send_task ["planner-agent"] "planner-agent" "hi" (fun s => s)
        ctxFresh "fresh-task-1" "m1" resWorking).ctx.state.task_id = none
    ∧ ((HostAgent.send_task ["planner-agent"] "planner-agent" "again" (fun s => s)
        (HostAgent.send_task ["planner-agent"] "planner-agent" "hi" (fun s => s)
          ctxFresh "fresh-task-1" "m1" resWorking).ctx
        "fresh-task-2" "m2" resWorking).request.map TaskSendParams.id)
      = some "fresh-task-2"
    ∧ ¬ (("fresh-task-2" : String) = "fresh-task-1") := by
  refine ⟨by decide, by decide, by decide, by decide, by decide⟩

/-! ### Claim C3 -/

/-- Claim C3: evaluation of `convert_part` on each part kind.  Text and
Data parts convert as the claim states, and a File part stores the decoded
blob under the file's declared name, sets both escalation flags and yields
the artifact-file-id DataPart; but a part of any other kind makes
`convert_part` raise `NameError` (the `return f"Unknown type: {p.type}"`
line references the undefined name `p`) instead of returning the
diagnostic string. -/
theorem convert_part_unknown_type_raises :
    convert_part (fun s => s) (TaskPart.other "video") ctxFresh
      = (ctxFresh, Except.error "NameError: name p is not defined")
    ∧ convert_part (fun s => s) (TaskPart.text "hello") ctxFresh
      = (ctxFresh, Except.ok (ConvResult.str "hello"))
    ∧ convert_part (fun s => s) (TaskPart.data [("k", "v")]) ctxFresh
      = (ctxFresh, Except.ok (ConvResult.data [("k", "v")]))
    ∧ convert_part (fun s => s)
        (TaskPart.file { name := "report.pdf", mimeType := "application/pdf",
                         bytes := "QUJD" }) ctxFresh
      = ({ ctxFresh with artifacts := [("report.pdf", "application/pdf", "QUJD")],
                         skip_summarization := true, escalate := true },
         Except.ok (ConvResult.part (TaskPart.data [("artifact-file-id", "report.pdf")]))) :=
  ⟨rfl, rfl, rfl, rfl⟩

/-! ### Claim C7 -/

/-- Claim C7: refuted by evaluation — the claimed "raises if and only if
the agent is unregistered or the state is CANCELED/FAILED" fails, because
`convert_part`'s NameError propagates out of `send_task`: with a
registered agent and a COMPLETED result whose message contains a part of
unrecognized kind, the call raises anyway. -/
theorem send_task_raises_on_unknown_part_despite_completed :
    resCompletedBadPart.status.state = TaskState.completed
    ∧ (HostAgent.send_task ["writer-agent"] "writer-agent" "go" (fun s => s)
        ctxFresh "t9" "m9" resCompletedBadPart).result
      = Except.error "NameError: name p is not defined" :=
  ⟨rfl, rfl⟩

/-! ### Substring lemmas -/

theorem isPrefixOf_self (l : List Char) : l.isPrefixOf l = true := by
  induction l with
  | nil => rfl
  | cons c cs ih => simp [List.isPrefixOf, ih]

theorem containsSub_self (l : List Char) : containsSub l l = true := by
  cases l with
  | nil => rfl
  | cons c cs => simp [containsSub, isPrefixOf_self]

theorem containsSub_append_self (pre needle : List Char) :
    containsSub needle (pre ++ needle) = true := by
  induction pre with
  | nil => simpa using containsSub_self needle
  | cons c rest ih => simp [containsSub, ih]

theorem strContains_self (t : String) : strContains t t = true :=
  containsSub_self _

theorem strContains_append_self (l t : String) :
    strContains (l ++ "\n" ++ t) t = true := by
  show containsSub t.toList (l ++ "\n" ++ t).toList = true
  have hdata : (l ++ "\n" ++ t).toList = (l.toList ++ "\n".toList) ++ t.toList := by
    simp [String.toList, String.data_append]
  rw [hdata]
  exact containsSub_append_self _ _

/-! ### Router step lemmas -/

theorem alGet_insert_self {α : Type} (l : List (String × α)) (k : String) (v : α) :
    alGet (alInsert l k v) k = some v := by
  rw [alGet_insert, if_pos rfl]

theorem alGet_alErase_self {α : Type} (l : List (String × α)) (k : String) :
    alGet (alErase l k) k = none := by
  induction l with
  | nil => rfl
  | cons p rest ih =>
    by_cases hp : p.1 = k
    · simp [alErase, hp] at ih ⊢
      exact ih
    · simp [alErase, hp] at ih ⊢
      simp [alGet, hp, ih]

theorem step_agent_thought_map (i : String) (a : AgentInfoR) (st : RouterState) :
    (step_agent i a st).1.thought_process_history = st.thought_process_history := by
  simp only [step_agent]
  rcases h : alGet st.current_agent_info i with _ | prev
  · simp [h]
  · by_cases hn : prev.name = a.name <;> simp [h, hn]

theorem step_agent_no_thought_notif (i : String) (a : AgentInfoR) (st : RouterState)
    (j l : String) : Notif.thought_process j l ∉ (step_agent i a st).2 := by
  simp only [step_agent]
  rcases h : alGet st.current_agent_info i with _ | prev
  · simp [h]
  · by_cases hn : prev.name = a.name <;> simp [h, hn]

theorem step_agent_preserves_agent_some (i : String) (a : AgentInfoR) (st : RouterState) :
    (alGet (step_agent i a st).1.current_agent_info i).isSome = true := by
  simp only [step_agent]
  rcases hg : alGet st.current_agent_info i with _ | prev
  · simp [hg, alGet_insert_self]
  · by_cases hn : prev.name = a.name <;> simp [hg, hn, alGet_insert_self]

theorem step_thought_agent_map (i : String) (u : Update) (st : RouterState) :
    (step_thought i u st).1.current_agent_info = st.current_agent_info := by
  simp only [step_thought]
  rcases he : extract_thought u with _ | tp
  · rfl
  · rcases hh : alGet st.thought_process_history i with _ | log
    · by_cases ht : tp = "" <;> simp [ht]
    · by_cases hc : tp ≠ "" ∧ strContains log tp = false <;>
        by_cases ht : tp = "" <;> simp [hc, ht]

theorem step_thought_preserves_some_at (i : String) (u : Update) (st : RouterState)
    (h : (alGet st.thought_process_history i).isSome = true) :
    (alGet (step_thought i u st).1.thought_process_history i).isSome = true := by
  simp only [step_thought]
  rcases he : extract_thought u with _ | tp
  · exact h
  · rcases hh : alGet st.thought_process_history i with _ | log
    · rw [hh] at h
      simp at h
    · by_cases hs : strContains log tp = false <;>
        by_cases ht : tp = "" <;>
        simp [hs, ht, hh, alGet_insert_self]

theorem step_complete_not_completed (i : String) (u : Update) (a : AgentInfoR)
    (now : String) (st : RouterState)
    (h : ¬ stateOf u = some TaskState.completed) :
    step_complete i u a now st = (st, []) := by
  simp [step_complete, h]

theorem step_thought_post (i : String) (u : Update) (st : RouterState) (t : String)
    (hex : extract_thought u = some t) (ht : ¬ t = "") :
    ∃ L, alGet (step_thought i u st).1.thought_process_history i = some L
      ∧ strContains L t = true
      ∧ (step_thought i u st).2 = [Notif.thought_process i L] := by
  simp only [step_thought, hex]
  rcases hh : alGet st.thought_process_history i with _ | log
  · refine ⟨t, ?_, strContains_self t, ?_⟩
    · simp [ht, hh, alGet_insert_self]
    · simp [ht, hh, alGet_insert_self]
  · by_cases hs : strContains log t = false
    · refine ⟨log ++ "\n" ++ t, ?_, strContains_append_self log t, ?_⟩
      · simp [ht, hh, hs, alGet_insert_self]
      · simp [ht, hh, hs, alGet_insert_self]
    · have hcon : strContains log t = true := by
        rcases hb : strContains log t
        · exact absurd hb hs
        · rfl
      refine ⟨log, ?_, hcon, ?_⟩
      · simp [ht, hh, hcon]
      · simp [ht, hh, hcon]

theorem step_thought_dedup (i : String) (u : Update) (st : RouterState) (t L : String)
    (hex : extract_thought u = some t) (ht : ¬ t = "")
    (hL : alGet st.thought_process_history i = some L)
    (hcon : strContains L t = true) :
    (step_thought i u st).1 = st
    ∧ (step_thought i u st).2 = [Notif.thought_process i L] := by
  have hns : ¬ (t ≠ "" ∧ strContains L t = false) := by simp [hcon]
  constructor
  · simp [step_thought, hex, hL, hns, ht, hcon]
  · simp [step_thought, hex, hL, hns, ht, hcon]

theorem handle_reduce (u : Update) (card : AgentCard) (st : RouterState) (now : String)
    (i : String) (hid : u.id = some i) (hne : ¬ i = "")
    (hnc : ¬ stateOf u = some TaskState.completed) :
    handle_task_updates u card st now
      = ((step_thought i u (step_agent i (mkAgentInfo card) st).1).1,
         (step_agent i (mkAgentInfo card) st).2
           ++ (step_thought i u (step_agent i (mkAgentInfo card) st).1).2,
         u) := by
  simp [handle_task_updates, hid, hne, step_complete, hnc]

/-! ### Claim C8 -/

/-- Claim C8: delivering the same update (with the same non-empty extracted
thought fragment) twice in succession appends the fragment to the task's
accumulated thought log only once — the second delivery leaves the log
unchanged, because the fragment is already a substring — and every emitted
thought-process notification carries the full accumulated log as recorded
after the call, not just the new fragment.  (The update is assumed
non-COMPLETED; a COMPLETED update deletes the log, which is claim C9's
behaviour.) -/
theorem thought_log_dedup
    (st : RouterState) (u : Update) (card : AgentCard) (now1 now2 i t : String)
    (hid : u.id = some i) (hne : ¬ i = "")
    (hex : extract_thought u = some t) (ht : ¬ t = "")
    (hnc : ¬ stateOf u = some TaskState.completed) :
    alGet (handle_task_updates u card (handle_task_updates u card st now1).1
        now2).1.thought_process_history i
      = alGet (handle_task_updates u card st now1).1.thought_process_history i
    ∧ (∀ l, Notif.thought_process i l ∈ (handle_task_updates u card st now1).2.1 →
        some l = alGet (handle_task_updates u card st now1).1.thought_process_history i)
    ∧ (∀ l, Notif.thought_process i l ∈ (handle_task_updates u card
          (handle_task_updates u card st now1).1 now2).2.1 →
        some l = alGet (handle_task_updates u card
          (handle_task_updates u card st now1).1 now2).1.thought_process_history i) := by
  rw [handle_reduce u card st now1 i hid hne hnc]
  dsimp only
  obtain ⟨L1, hL1, hcon1, hnotif1⟩ :=
    step_thought_post i u (step_agent i (mkAgentInfo card) st).1 t hex ht
  rw [handle_reduce u card
      (step_thought i u (step_agent i (mkAgentInfo card) st).1).1 now2 i hid hne hnc]
  dsimp only
  have hmap2 : alGet (step_agent i (mkAgentInfo card)
      (step_thought i u (step_agent i (mkAgentInfo card) st).1).1).1.thought_process_history i
      = some L1 := by
    rw [step_agent_thought_map]
    exact hL1
  obtain ⟨hfix, hnotif2⟩ := step_thought_dedup i u
    (step_agent i (mkAgentInfo card)
      (step_thought i u (step_agent i (mkAgentInfo card) st).1).1).1 t L1 hex ht hmap2 hcon1
  refine ⟨?_, ?_, ?_⟩
  · rw [hfix, step_agent_thought_map]
  · intro l hl
    rcases List.mem_append.mp hl with h1 | h2
    · exact absurd h1 (step_agent_no_thought_notif i (mkAgentInfo card) st i l)
    · rw [hnotif1] at h2
      simp only [List.mem_singleton, Notif.thought_process.injEq] at h2
      rw [h2.2, hL1]
  · intro l hl
    rcases List.mem_append.mp hl with h1 | h2
    · exact absurd h1 (step_agent_no_thought_notif i (mkAgentInfo card) _ i l)
    · rw [hnotif2] at h2
      simp only [List.mem_singleton, Notif.thought_process.injEq] at h2
      rw [h2.2, hfix, step_agent_thought_map]
      exact hL1.symm

/-- Claim C8, witness: the same thought-bearing WORKING update delivered
twice on an empty router state. -/
theorem thought_log_dedup_witness :
    updThinking.id = some "task-T"
    ∧ ¬ ("task-T" : String) = ""
    ∧ extract_thought updThinking = some "use the cache"
    ∧ ¬ ("use the cache" : String) = ""
    ∧ ¬ stateOf updThinking = some TaskState.completed
    ∧ (alGet (handle_task_updates updThinking cardNS
          (handle_task_updates updThinking cardNS {} "n1").1
          "n2").1.thought_process_history "task-T"
        = alGet (handle_task_updates updThinking cardNS {}
            "n1").1.thought_process_history "task-T"
       ∧ (∀ l, Notif.thought_process "task-T" l
              ∈ (handle_task_updates updThinking cardNS {} "n1").2.1 →
            some l = alGet (handle_task_updates updThinking cardNS {}
              "n1").1.thought_process_history "task-T")
       ∧ (∀ l, Notif.thought_process "task-T" l
              ∈ (handle_task_updates updThinking cardNS
                  (handle_task_updates updThinking cardNS {} "n1").1 "n2").2.1 →
            some l = alGet (handle_task_updates updThinking cardNS
                (handle_task_updates updThinking cardNS {} "n1").1
                "n2").1.thought_process_history "task-T")) :=
  ⟨by decide, by decide, by decide, by decide, by decide,
   thought_log_dedup {} updThinking cardNS "n1" "n2" "task-T" "use the cache"
     (by decide) (by decide) (by decide) (by decide) (by decide)⟩

/-! ### Claim C9 -/

/-- Claim C9: after the handler processes an update with state COMPLETED
for task id T, a task-completion notification for T has been emitted and
both per-task bookkeeping maps have no entry for T; for an update with any
other (or no) state, an existing entry of either map for T is preserved. -/
theorem completed_update_cleanup
    (st : RouterState) (u : Update) (card : AgentCard) (now i : String)
    (hid : u.id = some i) (hne : ¬ i = "") :
    (stateOf u = some TaskState.completed →
      (∃ r, Notif.task_completion i r ∈ (handle_task_updates u card st now).2.1)
      ∧ alGet (handle_task_updates u card st now).1.thought_process_history i = none
      ∧ alGet (handle_task_updates u card st now).1.current_agent_info i = none)
    ∧ (¬ stateOf u = some TaskState.completed →
      ((alGet st.thought_process_history i).isSome = true →
        (alGet (handle_task_updates u card st now).1.thought_process_history i).isSome = true)
      ∧ ((alGet st.current_agent_info i).isSome = true →
        (alGet (handle_task_updates u card st now).1.current_agent_info i).isSome = true)) := by
  constructor
  · intro hc
    refine ⟨⟨mkCompletionResult u (mkAgentInfo card).name now, ?_⟩, ?_, ?_⟩
    · simp [handle_task_updates, hid, hne, step_complete, hc]
    · simp [handle_task_updates, hid, hne, step_complete, hc, alGet_alErase_self]
    · simp [handle_task_updates, hid, hne, step_complete, hc, alGet_alErase_self]
  · intro hnc
    constructor
    · intro hsome
      rw [handle_reduce u card st now i hid hne hnc]
      dsimp only
      refine step_thought_preserves_some_at i u _ ?_
      rw [step_agent_thought_map]
      exact hsome
    · intro _
      rw [handle_reduce u card st now i hid hne hnc]
      dsimp only
      rw [step_thought_agent_map]
      exact step_agent_preserves_agent_some i (mkAgentInfo card) st

/-- Claim C9, witness: a COMPLETED update on an empty router state, and a
non-COMPLETED update on a state that already tracks the task. -/
theorem completed_update_cleanup_witness :
    updCompleted.id = some "task-T"
    ∧ ¬ ("task-T" : String) = ""
    ∧ ((stateOf updCompleted = some TaskState.completed →
        (∃ r, Notif.task_completion "task-T" r
            ∈ (handle_task_updates updCompleted cardNS {} "n1").2.1)
        ∧ alGet (handle_task_updates updCompleted cardNS {}
            "n1").1.thought_process_history "task-T" = none
        ∧ alGet (handle_task_updates updCompleted cardNS {}
            "n1").1.current_agent_info "task-T" = none)
       ∧ (¬ stateOf updCompleted = some TaskState.completed →
        ((alGet (RouterState.thought_process_history {}) "task-T").isSome = true →
          (alGet (handle_task_updates updCompleted cardNS {}
            "n1").1.thought_process_history "task-T").isSome = true)
        ∧ ((alGet (RouterState.current_agent_info {}) "task-T").isSome = true →
          (alGet (handle_task_updates updCompleted cardNS {}
            "n1").1.current_agent_info "task-T").isSome = true))) :=
  ⟨by decide, by decide,
   completed_update_cleanup {} updCompleted cardNS "n1" "task-T" (by decide) (by decide)⟩

/-! ### Claim C10 -/

/-- Claim C10: the notification path never raises into the coordinator
call path — `handle_task_updates` returns the raw update it was given for
every update (including updates lacking a task id or a status), and
`send_task_update` returns `false` rather than raising whenever the
subscriber is missing, the delivery raised an exception, or the response
status is not 2xx. -/
theorem notification_path_never_raises :
    (∀ (u : Update) (card : AgentCard) (st : RouterState) (now : String),
        (handle_task_updates u card st now).2.2 = u)
    ∧ (∀ (urls : List (String × String)) (tid : String) (out : DeliveryOutcome),
        (alGet urls tid = none
          ∨ out = DeliveryOutcome.exceptionRaised
          ∨ ∃ s, out = DeliveryOutcome.response s ∧ (s < 200 ∨ 300 ≤ s)) →
        NotificationService.send_task_update urls tid out = false) := by
  constructor
  · intro u card st now
    rcases hid : u.id with _ | i
    · simp [handle_task_updates, hid]
    · by_cases hne : i = "" <;> simp [handle_task_updates, hid, hne]
  · intro urls tid out h
    rcases hg : alGet urls tid with _ | url
    · simp [NotificationService.send_task_update, hg]
    · rcases h with h | h | ⟨s, rfl, hs⟩
      · rw [hg] at h
        exact absurd h (by simp)
      · simp [NotificationService.send_task_update, hg, h]
      · simp only [NotificationService.send_task_update, hg]
        rcases hs with hs | hs
        · have h200 : decide (200 ≤ s) = false := decide_eq_false (by omega)
          simp [h200]
        · have h300 : decide (s < 300) = false := decide_eq_false (by omega)
          simp [h300]

/-- Claim C10, witness: a concrete update passed through unchanged, and a
delivery with no registered subscriber plus a 500 response both returning
false. -/
theorem notification_path_never_raises_witness :
    (handle_task_updates updThinking cardNS {} "n0").2.2 = updThinking
    ∧ (alGet ([] : List (String × String)) "task-x" = none
        ∨ (DeliveryOutcome.response 500) = DeliveryOutcome.exceptionRaised
        ∨ ∃ s, (DeliveryOutcome.response 500) = DeliveryOutcome.response s
            ∧ (s < 200 ∨ 300 ≤ s))
    ∧ NotificationService.send_task_update [] "task-x" (DeliveryOutcome.response 500)
        = false :=
  ⟨notification_path_never_raises.1 updThinking cardNS {} "n0",
   Or.inl rfl,
   notification_path_never_raises.2 [] "task-x" (DeliveryOutcome.response 500)
     (Or.inl rfl)⟩
